import Mathlib

/-!
Verification of the prompt-template editor (`src/App.js`) against its
natural-language specification.

The embedding is shallow: JavaScript strings become `String`, arrays become
`List`, objects with possibly-absent fields become structures with `Option`
fields, and the browser platform services the app consumes opaquely
(`JSON.parse` / `JSON.stringify`, `localStorage`, `window.confirm`, the
`FileReader`) are modelled as explicit parameters or small executable models.
`Date.now()` (the minted identifier) is passed in as a parameter, and the
blocking `window.confirm` dialog as a `Bool`.
-/

namespace PromptTool

/-! ## String helpers (JS semantics)

`lowerStr` models `String.prototype.toLowerCase` (ASCII range, which is all
the app's fixed strings use), `strIncludes` models
`String.prototype.includes` (contiguous substring test), and `trimStr`
models `String.prototype.trim` (strip whitespace from both ends).  They are
written over the underlying character lists so that they evaluate on
concrete inputs. -/

/-- Does `needle` match at the front of `hay`? -/
def matchesAt : List Char → List Char → Bool
  | _, [] => true
  | [], _ :: _ => false
  | a :: hs, b :: ns => a == b && matchesAt hs ns

/-- `needle` occurs contiguously somewhere in `hay` (JS `includes`). -/
def containsSeq (hay needle : List Char) : Bool :=
  match hay with
  | [] => needle.isEmpty
  | _ :: t => matchesAt hay needle || containsSeq t needle

/-- JS `hay.includes(needle)`. -/
def strIncludes (hay needle : String) : Bool := containsSeq hay.data needle.data

/-- JS `s.toLowerCase()` (ASCII model). -/
def lowerStr (s : String) : String := String.mk (s.data.map Char.toLower)

/-- JS `s.trim()`: drop whitespace from both ends. -/
def trimStr (s : String) : String :=
  String.mk
    (((s.data.dropWhile Char.isWhitespace).reverse.dropWhile Char.isWhitespace).reverse)

/-! ## Data model

A JS template object.  `id` is a string ("" standing for a falsy/unset id);
the other fields may be absent (`none`), as happens for objects brought in
through `import` without validation. -/

structure Template where
  id : String
  name : Option String
  tags : Option (List String)
  context : Option String
  task : Option String
  rules : Option (List String)
  format : Option String
  examples : Option (List String)
deriving Repr, DecidableEq

/-- `DEFAULT_TEMPLATES` from `src/App.js`: the three seed templates. -/
def DEFAULT_TEMPLATES : List Template :=
  [ { id := "research-brief", name := some "Research Brief",
      tags := some ["research", "analysis"],
      context := some "You are an expert researcher synthesizing credible sources into concise, actionable insights.",
      task := some "Analyze the topic and produce a structured brief with key findings and implications.",
      rules := some ["Cite facts with source names.", "Be concise and neutral.", "Call out uncertainty."],
      format := some "Sections: Summary, Key Findings, Risks/Unknowns, References",
      examples := some ["Example: For ETH staking, summarize yield ranges, slashing risks, providers, and regs."] },
    { id := "code-review", name := some "Code Review Helper",
      tags := some ["coding", "review"],
      context := some "You are a senior engineer reviewing a PR for correctness and maintainability.",
      task := some "Identify issues, suggest concrete fixes, and note potential refactors.",
      rules := some ["Be specific with file/line when possible.", "Prefer minimal, safe edits.", "Explain rationale."],
      format := some "Sections: Summary, Issues, Suggestions, Tests to Add",
      examples := some ["Example: Identify unreachable branches and suggest guard clauses."] },
    { id := "brainstorm", name := some "Brainstorming",
      tags := some ["ideation", "creative"],
      context := some "You are a creative partner producing unconventional but feasible ideas.",
      task := some "Generate options that vary by complexity, cost, and risk.",
      rules := some ["List pros/cons for each idea.", "Include one weird but plausible idea."],
      format := some "Table: Idea, Rationale, Pros, Cons, Next Step",
      examples := some ["Example: Growth ideas for a niche DeFi analytics tool."] } ]

/-- The whole app state: the repository collection, the `active` link (the
template the draft was loaded from / last saved as, `none` = unsaved/new),
and the seven draft fields held in React state. -/
structure AppState where
  templates : List Template
  active : Option Template
  name : String
  tags : List String
  context : String
  task : String
  rules : List String
  format : String
  examples : List String
deriving Repr, DecidableEq

/-! ## Prompt Assembler

`assembled` from `src/App.js` lines 170-178: each `if(x){...}` pushes the
section's lines when the field is truthy (a non-empty string / a non-empty
array), then the pushed lines are joined with newlines and the result is
trimmed. -/

/-- The `assembled` memo of `src/App.js` as a function of the five draft
fields it reads. -/
def assembled (context task : String) (rules : List String) (format : String)
    (examples : List String) : String :=
  let lines :=
    (if context = "" then [] else ["Context:", trimStr context, ""]) ++
    (if task = "" then [] else ["Task:", trimStr task, ""]) ++
    (if rules = [] then [] else "Rules:" :: (rules.map (fun r => "- " ++ r) ++ [""])) ++
    (if format = "" then [] else ["Format:", trimStr format, ""]) ++
    (if examples = [] then [] else "Examples:" :: (examples.map (fun ex => "- " ++ ex) ++ [""]))
  trimStr (String.intercalate "\n" lines)

/-! ## Template Filter and the all-tags view -/

/-- The searchable text of a template: the `join(' ')` of
`[t.name,t.context,t.task,t.format,...(t.rules||[]),...(t.examples||[])]`
(JS `Array.join` renders an absent element as the empty string). -/
def searchText (t : Template) : String :=
  String.intercalate " "
    ([t.name.getD "", t.context.getD "", t.task.getD "", t.format.getD ""] ++
      t.rules.getD [] ++ t.examples.getD [])

/-- The `filtered` memo of `src/App.js` lines 103-111. -/
def filtered (templates : List Template) (search tagFilter : String) : List Template :=
  let q := trimStr (lowerStr search)
  let tg := trimStr (lowerStr tagFilter)
  templates.filter (fun t =>
    (q == "" || strIncludes (lowerStr (searchText t)) q) &&
    (tg == "" || (t.tags.getD []).any (fun x => strIncludes (lowerStr x) tg)))

/-- Keep the first occurrence of every string, dropping later duplicates
(JS `new Set(...)` iteration order). -/
def dedupFirst (seen : List String) : List String → List String
  | [] => []
  | a :: l => if a ∈ seen then dedupFirst seen l else a :: dedupFirst (a :: seen) l

/-- Insert into a lexicographically sorted list (model of JS default sort). -/
def insertSorted (s : String) : List String → List String
  | [] => [s]
  | a :: l => if s < a then s :: a :: l else a :: insertSorted s l

/-- Insertion sort by the lexicographic string order. -/
def sortStr : List String → List String
  | [] => []
  | a :: l => insertSorted a (sortStr l)

/-- The `allTags` memo of `src/App.js` line 102:
`Array.from(new Set(templates.flatMap(t=>t.tags||[]))).sort()`. -/
def allTags (templates : List Template) : List String :=
  sortStr (dedupFirst [] (templates.map (fun t => t.tags.getD [])).flatten)

/-! ## Editor State Controller -/

/-- `resetEditor` from `src/App.js` line 180: clear the link and every draft
field. The repository collection is untouched. -/
def resetEditor (st : AppState) : AppState :=
  { st with active := none, name := "", tags := [], context := "", task := "",
            rules := [], format := "", examples := [] }

/-- `saveTemplate` from `src/App.js` lines 181-187.  `minted` is the
`Date.now()` string the browser would supply.  The JS condition
`active?.id && active.id!=='unsaved'` is falsy when there is no active
template, when its id is the empty string, or when it is the sentinel. -/
def saveTemplate (minted : String) (st : AppState) : AppState :=
  let id :=
    match st.active with
    | some a => if a.id ≠ "" ∧ a.id ≠ "unsaved" then a.id else minted
    | none => minted
  let next : Template :=
    { id := id,
      name := some (if st.name = "" then "Untitled" else st.name),
      tags := some st.tags, context := some st.context, task := some st.task,
      rules := some st.rules, format := some st.format,
      examples := some st.examples }
  let hasId := st.templates.any (fun t => t.id == id)
  let updated :=
    if hasId then st.templates.map (fun t => if t.id == id then next else t)
    else next :: st.templates
  { st with templates := updated, active := some next }

/-- `deleteTemplate` from `src/App.js` line 190.  `confirmed` is the result
of the blocking `window.confirm` dialog; `active?.id===t.id` is false when
there is no active template. -/
def deleteTemplate (confirmed : Bool) (t : Template) (st : AppState) : AppState :=
  if !confirmed then st
  else
    let st' := { st with templates := st.templates.filter (fun x => !(x.id == t.id)) }
    if st.active.map (fun a => a.id) = some t.id then resetEditor st' else st'

/-! ## Import/Export Gateway -/

/-- The outcome of `JSON.parse` on an import file, as far as
`importTemplates` inspects it: a successfully parsed top-level array (whose
elements land in the collection unvalidated), or some other successfully
parsed JSON value. -/
inductive JsVal where
  | arr : List Template → JsVal
  | nonArr : JsVal
deriving Repr, DecidableEq

/-- `importTemplates` from `src/App.js` line 193, as a function of the
platform parse outcome (`Except.error m` = `JSON.parse` threw with message
`m`).  Returns the new state and the `alert` message, if any. -/
def importTemplates (parsed : Except String JsVal) (st : AppState) :
    AppState × Option String :=
  match parsed with
  | Except.error m => (st, some ("Import failed: " ++ m))
  | Except.ok JsVal.nonArr => (st, some "Import failed: Invalid file")
  | Except.ok (JsVal.arr data) => ({ st with templates := data }, none)

/-- `exportTemplates` from `src/App.js` line 192: the downloadable document
is `JSON.stringify(templates, null, 2)`; the platform serializer is passed
in as `stringify`. -/
def exportTemplates (stringify : List Template → String) (st : AppState) : String :=
  stringify st.templates

/-! ## Persistent Store Adapter -/

/-- The initializer of `useLocalStorageTemplates` (`src/App.js` lines 27-34):
`raw` is `localStorage.getItem` (`none` = key absent), `parse` the platform
`JSON.parse` (`none` = it threw).  `raw ? JSON.parse(raw) : DEFAULT_TEMPLATES`
takes the default when `raw` is null or the empty string (both falsy), and
the `catch` takes the default when parsing throws. -/
def loadTemplates (raw : Option String) (parse : String → Option (List Template)) :
    List Template :=
  match raw with
  | none => DEFAULT_TEMPLATES
  | some s =>
    if s = "" then DEFAULT_TEMPLATES
    else match parse s with
      | some v => v
      | none => DEFAULT_TEMPLATES

/-! ## Spec-side definitions

Written from the spec's (or the corrected claim's) words, to be compared
with the definitions translated from the source. -/

/-- A section block as the spec describes it: nothing when there is no
content, else the header line, the content lines, and a blank separator. -/
def specSection (header : String) (content : Option (List String)) : List String :=
  match content with
  | none => []
  | some ls => header :: (ls ++ [""])

/-- Claim C1's reading of a string section's content: a section whose field
trims to empty (empty or whitespace-only) contributes nothing; otherwise one
trimmed line. -/
def strContentClaim (s : String) : Option (List String) :=
  if trimStr s = "" then none else some [trimStr s]

/-- The amended reading: a string section contributes whenever the field is
non-empty as a string — a whitespace-only field still contributes its header
and a (then empty) trimmed content line. -/
def strContent (s : String) : Option (List String) :=
  if s = "" then none else some [trimStr s]

/-- A list section's content: nothing when the sequence is empty, else one
prefixed line per item. -/
def listContent (pre : String) (l : List String) : Option (List String) :=
  if l = [] then none else some (l.map (fun x => pre ++ x))

/-- Claim C1 as frozen, in spec words: the five sections in fixed order,
whitespace-only string fields contributing nothing. -/
def specAssembleClaimC1 (context task : String) (rules : List String)
    (format : String) (examples : List String) : String :=
  trimStr (String.intercalate "\n"
    (specSection "Context:" (strContentClaim context) ++
     specSection "Task:" (strContentClaim task) ++
     specSection "Rules:" (listContent "- " rules) ++
     specSection "Format:" (strContentClaim format) ++
     specSection "Examples:" (listContent "- " examples)))

/-- Claim C1 as amended: identical, except a string section is emitted iff
the field is non-empty as a string. -/
def specAssembleAmended (context task : String) (rules : List String)
    (format : String) (examples : List String) : String :=
  trimStr (String.intercalate "\n"
    (specSection "Context:" (strContent context) ++
     specSection "Task:" (strContent task) ++
     specSection "Rules:" (listContent "- " rules) ++
     specSection "Format:" (strContent format) ++
     specSection "Examples:" (listContent "- " examples)))

/-- Claim C2's matching predicate as frozen: the raw query is matched
(only its emptiness test may ignore whitespace). -/
def specMatchC2 (search tg : String) (t : Template) : Bool :=
  (trimStr search == "" || strIncludes (lowerStr (searchText t)) (lowerStr search)) &&
  (trimStr tg == "" || (t.tags.getD []).any (fun x => strIncludes (lowerStr x) (lowerStr tg)))

/-- Claim C2 as amended: both queries are lowercased and trimmed before the
substring tests. -/
def specMatchAmended (search tg : String) (t : Template) : Bool :=
  (trimStr (lowerStr search) == "" ||
      strIncludes (lowerStr (searchText t)) (trimStr (lowerStr search))) &&
  (trimStr (lowerStr tg) == "" ||
      (t.tags.getD []).any (fun x => strIncludes (lowerStr x) (trimStr (lowerStr tg))))

/-! ## Helper lemmas -/

theorem matchesAt_refl (l : List Char) : matchesAt l l = true := by
  induction l with
  | nil => rfl
  | cons a t ih => simp [matchesAt, ih]

theorem containsSeq_self (l : List Char) : containsSeq l l = true := by
  cases l with
  | nil => rfl
  | cons a t => simp [containsSeq, matchesAt_refl]

theorem containsSeq_append_right (xs ys : List Char) :
    containsSeq (xs ++ ys) ys = true := by
  induction xs with
  | nil => simpa using containsSeq_self ys
  | cons a t ih => cases ys <;> simp [containsSeq, matchesAt, ih]

/-- A string contains any of its suffixes. -/
theorem strIncludes_append_right (pre m : String) :
    strIncludes (pre ++ m) m = true := by
  unfold strIncludes
  rw [String.data_append]
  exact containsSeq_append_right pre.data m.data

theorem specSection_strContentClaim (hd s : String) :
    specSection hd (strContentClaim s) =
      if trimStr s = "" then [] else [hd, trimStr s, ""] := by
  by_cases h : trimStr s = "" <;> simp [specSection, strContentClaim, h]

theorem specSection_strContent (hd s : String) :
    specSection hd (strContent s) = if s = "" then [] else [hd, trimStr s, ""] := by
  by_cases h : s = "" <;> simp [specSection, strContent, h]

theorem specSection_listContent (hd pre : String) (l : List String) :
    specSection hd (listContent pre l) =
      if l = [] then [] else hd :: (l.map (fun x => pre ++ x) ++ [""]) := by
  by_cases h : l = [] <;> simp [specSection, listContent, h]

/-! ## Claim theorems -/

/-- C9: for a draft whose context, task and format are empty strings and
whose rules and examples are empty sequences, `assembled` returns the empty
string. -/
theorem assembled_empty_draft : assembled "" "" [] "" [] = "" := rfl

/-- C1 counterexample: a draft whose context is the whitespace-only string
`" "` (and everything else empty).  The code emits the `Context:` header for
it, while the claim says a whitespace-only field contributes nothing at all,
which would give the empty string. -/
theorem assembled_ws_header :
    assembled " " "" [] "" [] = "Context:" ∧
    specAssembleClaimC1 " " "" [] "" [] = "" := by
  constructor <;> rfl

/-- C1 (amended): the assembled prompt is exactly the fixed-order sequence
of section blocks — header line, content (one trimmed line for string
sections, one "- "-prefixed line per item for rules/examples), blank
separator — with surrounding whitespace trimmed from the final result; a
section is emitted iff its string field is non-empty **as a string** (so a
whitespace-only field still emits its header, with an empty content line)
or its sequence is non-empty. -/
theorem assembled_eq_spec (context task : String) (rules : List String)
    (format : String) (examples : List String) :
    assembled context task rules format examples =
      specAssembleAmended context task rules format examples := by
  simp only [assembled, specAssembleAmended, specSection_strContent,
    specSection_listContent]

/-- C2 counterexample: the query `" abc"` (leading space) and a template
whose only searchable content is the name `"abc"`.  The code trims the query
and therefore keeps the template; the claim as frozen matches the untrimmed
query `" abc"`, which the template's searchable text does not contain, so it
would drop the template. -/
theorem filtered_trims_query :
    filtered [{ id := "t1", name := some "abc", tags := none, context := none,
                task := none, rules := none, format := none, examples := none }]
        " abc" "" =
      [{ id := "t1", name := some "abc", tags := none, context := none,
         task := none, rules := none, format := none, examples := none }] ∧
    List.filter
        (specMatchC2 " abc" "")
        [{ id := "t1", name := some "abc", tags := none, context := none,
           task := none, rules := none, format := none, examples := none }] =
      [] := by
  constructor <;> rfl

/-- C2 (amended): a template appears in `filtered templates search tag` iff
(the lowercased `search` trims to empty, or the lowercased space-joined
concatenation of its name, context, task, format, rules and examples
contains the lowercased **trimmed** `search` as a substring) and (the
lowercased `tag` trims to empty, or some tag, lowercased, contains the
lowercased trimmed `tag` as a substring); the result is a subsequence of
the input (order preserved), and both queries empty return the input
unchanged. -/
theorem filtered_spec (ts : List Template) (search tg : String) :
    filtered ts search tg = ts.filter (specMatchAmended search tg) ∧
    (∀ t : Template,
      t ∈ filtered ts search tg ↔ t ∈ ts ∧ specMatchAmended search tg t = true) ∧
    (filtered ts search tg).Sublist ts ∧
    filtered ts "" "" = ts := by
  refine ⟨rfl, ?_, ?_, ?_⟩
  · intro t
    exact List.mem_filter
  · exact List.filter_sublist ts
  · show List.filter _ ts = ts
    have h : trimStr (lowerStr "") = "" := rfl
    simp [List.filter_eq_self, h]

/-- The id chosen by `saveTemplate`. -/
def savedId (minted : String) (st : AppState) : String :=
  match st.active with
  | some a => if a.id ≠ "" ∧ a.id ≠ "unsaved" then a.id else minted
  | none => minted

/-- The template `saveTemplate` persists. -/
def savedTemplate (minted : String) (st : AppState) : Template :=
  { id := savedId minted st,
    name := some (if st.name = "" then "Untitled" else st.name),
    tags := some st.tags, context := some st.context, task := some st.task,
    rules := some st.rules, format := some st.format,
    examples := some st.examples }

theorem saveTemplate_templates_eq (minted : String) (st : AppState) :
    (saveTemplate minted st).templates =
      (if st.templates.any (fun t => t.id == savedId minted st)
       then st.templates.map
         (fun t => if t.id == savedId minted st then savedTemplate minted st else t)
       else savedTemplate minted st :: st.templates) := rfl

theorem deleteTemplate_confirm_eq (t : Template) (st : AppState) :
    deleteTemplate true t st =
      (if st.active.map (fun a => a.id) = some t.id
       then resetEditor
         { st with templates := st.templates.filter (fun x => !(x.id == t.id)) }
       else { st with templates := st.templates.filter (fun x => !(x.id == t.id)) }) :=
  rfl

theorem deleteTemplate_confirm_templates (t : Template) (st : AppState) :
    (deleteTemplate true t st).templates =
      st.templates.filter (fun x => !(x.id == t.id)) := by
  rw [deleteTemplate_confirm_eq]
  split <;> rfl

/-- Replacing, in place, every element whose id equals the new template's id
by the new template leaves the list of ids unchanged. -/
theorem ids_map_replace (ts : List Template) (nt : Template) :
    ((ts.map (fun t => if t.id == nt.id then nt else t)).map (fun t => t.id)) =
      ts.map (fun t => t.id) := by
  induction ts with
  | nil => rfl
  | cons a l ih =>
    simp only [List.map_cons, ih]
    by_cases h : a.id = nt.id
    · simp [h]
    · simp [h]

/-- An insert-or-replace keyed on the new element's id preserves
distinctness of the ids. -/
theorem nodup_after_upsert (ts : List Template) (nt : Template)
    (h : (ts.map (fun x => x.id)).Nodup) :
    (((if ts.any (fun t => t.id == nt.id)
       then ts.map (fun t => if t.id == nt.id then nt else t)
       else nt :: ts)).map (fun x => x.id)).Nodup := by
  by_cases hx : ts.any (fun t => t.id == nt.id) = true
  · rw [if_pos hx, ids_map_replace]
    exact h
  · rw [if_neg hx]
    simp only [List.map_cons, List.nodup_cons]
    refine ⟨?_, h⟩
    intro hm
    rcases List.mem_map.mp hm with ⟨x, hxm, hxid⟩
    exact hx (List.any_eq_true.mpr ⟨x, hxm, by simp [hxid]⟩)

/-- C3: `save()` mints the persisted id from the draft's link (reusing it
iff it is set — non-empty — and not the `"unsaved"` sentinel, else taking
the freshly minted identifier), builds the template from the current draft
fields with an empty name defaulted to `"Untitled"`, replaces in place —
positions unchanged — when a template with that id exists, prepends
otherwise, and links the draft (`active`) to the saved template. -/
theorem saveTemplate_spec (minted : String) (st : AppState) :
    ∃ nt : Template,
      (saveTemplate minted st).active = some nt ∧
      nt.id = (match st.active with
        | some a => if a.id ≠ "" ∧ a.id ≠ "unsaved" then a.id else minted
        | none => minted) ∧
      nt.name = some (if st.name = "" then "Untitled" else st.name) ∧
      nt.tags = some st.tags ∧ nt.context = some st.context ∧
      nt.task = some st.task ∧ nt.rules = some st.rules ∧
      nt.format = some st.format ∧ nt.examples = some st.examples ∧
      (st.templates.any (fun t => t.id == nt.id) = true →
        (saveTemplate minted st).templates =
          st.templates.map (fun t => if t.id == nt.id then nt else t)) ∧
      (st.templates.any (fun t => t.id == nt.id) = false →
        (saveTemplate minted st).templates = nt :: st.templates) := by
  unfold saveTemplate
  refine ⟨_, rfl, rfl, rfl, rfl, rfl, rfl, rfl, rfl, rfl, ?_, ?_⟩ <;>
    intro h <;> simp only [h] <;> simp

/-- C5: deleting first asks for confirmation and a decline changes nothing;
a confirmed delete removes exactly the templates carrying the given id
(order of the rest preserved), and resets the draft to Unsaved-New — every
field empty and no link — iff the deleted template was the one the draft is
linked to, leaving the draft untouched otherwise. -/
theorem deleteTemplate_spec (t : Template) (st : AppState) :
    deleteTemplate false t st = st ∧
    (deleteTemplate true t st).templates =
      st.templates.filter (fun x => !(x.id == t.id)) ∧
    (∀ x : Template,
      x ∈ (deleteTemplate true t st).templates ↔ x ∈ st.templates ∧ x.id ≠ t.id) ∧
    ((deleteTemplate true t st).templates).Sublist st.templates ∧
    (if st.active.map (fun a => a.id) = some t.id
     then (deleteTemplate true t st).active = none ∧
          (deleteTemplate true t st).name = "" ∧
          (deleteTemplate true t st).tags = [] ∧
          (deleteTemplate true t st).context = "" ∧
          (deleteTemplate true t st).task = "" ∧
          (deleteTemplate true t st).rules = [] ∧
          (deleteTemplate true t st).format = "" ∧
          (deleteTemplate true t st).examples = []
     else (deleteTemplate true t st).active = st.active ∧
          (deleteTemplate true t st).name = st.name ∧
          (deleteTemplate true t st).tags = st.tags ∧
          (deleteTemplate true t st).context = st.context ∧
          (deleteTemplate true t st).task = st.task ∧
          (deleteTemplate true t st).rules = st.rules ∧
          (deleteTemplate true t st).format = st.format ∧
          (deleteTemplate true t st).examples = st.examples) := by
  have hrw : deleteTemplate true t st =
      (if st.active.map (fun a => a.id) = some t.id
       then resetEditor
         { st with templates := st.templates.filter (fun x => !(x.id == t.id)) }
       else { st with templates := st.templates.filter (fun x => !(x.id == t.id)) }) :=
    rfl
  have htpl : (deleteTemplate true t st).templates =
      st.templates.filter (fun x => !(x.id == t.id)) := by
    rw [hrw]
    split <;> rfl
  refine ⟨rfl, htpl, ?_, ?_, ?_⟩
  · intro x
    rw [htpl]
    simp [List.mem_filter]
  · rw [htpl]
    exact List.filter_sublist st.templates
  · rw [hrw]
    by_cases h : st.active.map (fun a => a.id) = some t.id
    · simp [h, resetEditor]
    · simp [h]

/-- C4: importing fails exactly when the file contents do not parse as JSON
or the parsed top-level value is not an array; every failure surfaces a
user-visible message that contains the failure reason and leaves the
collection untouched (no partial import), and a successful import replaces
the collection wholesale with the parsed array. -/
theorem importTemplates_spec (parsed : Except String JsVal)
    (data : List Template) (m : String) (st : AppState) :
    (((importTemplates parsed st).2 = none) ↔
      (∃ d, parsed = Except.ok (JsVal.arr d))) ∧
    importTemplates (Except.ok (JsVal.arr data)) st =
      ({ st with templates := data }, none) ∧
    importTemplates (Except.error m) st =
      (st, some ("Import failed: " ++ m)) ∧
    strIncludes ("Import failed: " ++ m) m = true ∧
    importTemplates (Except.ok JsVal.nonArr) st =
      (st, some "Import failed: Invalid file") ∧
    ((importTemplates parsed st).1 = st ∨ (importTemplates parsed st).2 = none) := by
  refine ⟨?_, rfl, rfl, ?_, rfl, ?_⟩
  · cases parsed with
    | error e => simp [importTemplates]
    | ok v => cases v <;> simp [importTemplates]
  · exact strIncludes_append_right "Import failed: " m
  · cases parsed with
    | error e => exact Or.inl rfl
    | ok v => cases v with
      | arr d => exact Or.inr rfl
      | nonArr => exact Or.inl rfl

/-- C6: loading the persisted collection returns the stored parsed value
when a stored value exists and parses, and otherwise — key absent, or
parsing throws — returns exactly the three seed templates (research,
code-review, brainstorming); no parse failure reaches the caller (the
return type has no error channel).  `hp` records that the real platform
parser rejects the empty string, which `raw ? ... : default` short-circuits
past. -/
theorem loadTemplates_spec (parse : String → Option (List Template))
    (s : String) (hp : parse "" = none) :
    loadTemplates none parse = DEFAULT_TEMPLATES ∧
    loadTemplates (some s) parse = (parse s).getD DEFAULT_TEMPLATES ∧
    DEFAULT_TEMPLATES.map (fun t => t.id) =
      ["research-brief", "code-review", "brainstorm"] := by
  refine ⟨rfl, ?_, rfl⟩
  unfold loadTemplates
  by_cases h : s = ""
  · subst h
    simp [hp]
  · simp only [if_neg h]
    cases parse s <;> rfl

/-- C6 witness: a concrete parser (accepting only the literal `"[]"`)
satisfies the hypothesis, and the theorem applies to it. -/
theorem loadTemplates_spec_witness :
    loadTemplates none (fun s => if s = "[]" then some [] else none) =
        DEFAULT_TEMPLATES ∧
      loadTemplates (some "[]") (fun s => if s = "[]" then some [] else none) =
        ((fun s => if s = "[]" then some ([] : List Template) else none) "[]").getD
          DEFAULT_TEMPLATES ∧
      DEFAULT_TEMPLATES.map (fun t => t.id) =
        ["research-brief", "code-review", "brainstorm"] :=
  loadTemplates_spec (fun s => if s = "[]" then some [] else none) "[]" (by decide)

/-- A template object carrying only an id (every optional field absent), as
an unvalidated import can produce. -/
def bareTemplate (i : String) : Template :=
  { id := i, name := none, tags := none, context := none, task := none,
    rules := none, format := none, examples := none }

/-- The state holding the three seed templates with a fresh draft. -/
def seedState : AppState :=
  { templates := DEFAULT_TEMPLATES, active := none, name := "", tags := [],
    context := "", task := "", rules := [], format := "", examples := [] }

/-- C7 counterexample: starting from an empty collection (ids trivially
pairwise distinct), importing the two-element array whose elements share the
id `"a"` yields a collection with a duplicated id — `replaceAll` installs
the parsed array without validation. -/
theorem import_duplicates_ids :
    ((({ templates := [], active := none, name := "", tags := [], context := "",
         task := "", rules := [], format := "", examples := [] } :
        AppState).templates.map (fun x => x.id)).Nodup) ∧
    ¬ ((((importTemplates
            (Except.ok (JsVal.arr [bareTemplate "a", bareTemplate "a"]))
            { templates := [], active := none, name := "", tags := [],
              context := "", task := "", rules := [], format := "",
              examples := [] }).1).templates.map (fun x => x.id)).Nodup) := by
  constructor
  · simp
  · decide

/-- C7 (amended): starting from a collection with pairwise-distinct ids,
`save` (insert-or-replace keyed on the chosen id) and `delete` (remove by
id) always preserve distinctness of the ids; `import` replaces the
collection wholesale without validation, so it preserves distinctness iff
the imported array's own ids are pairwise distinct. -/
theorem ids_unique_preserved (minted : String) (t : Template) (confirmed : Bool)
    (data : List Template) (st : AppState)
    (h : (st.templates.map (fun x => x.id)).Nodup) :
    ((saveTemplate minted st).templates.map (fun x => x.id)).Nodup ∧
    ((deleteTemplate confirmed t st).templates.map (fun x => x.id)).Nodup ∧
    ((data.map (fun x => x.id)).Nodup →
      (((importTemplates (Except.ok (JsVal.arr data)) st).1).templates.map
        (fun x => x.id)).Nodup) := by
  refine ⟨?_, ?_, ?_⟩
  · rw [saveTemplate_templates_eq]
    exact nodup_after_upsert st.templates (savedTemplate minted st) h
  · cases confirmed with
    | false => exact h
    | true =>
      rw [deleteTemplate_confirm_templates]
      exact h.sublist (List.Sublist.map _ (List.filter_sublist st.templates))
  · intro hd
    exact hd

/-- C7 witness: the amended theorem applied to the seed collection. -/
theorem ids_unique_preserved_witness :
    ((saveTemplate "m" seedState).templates.map (fun x => x.id)).Nodup ∧
    ((deleteTemplate true (bareTemplate "a") seedState).templates.map
      (fun x => x.id)).Nodup ∧
    (([bareTemplate "a"].map (fun x => x.id)).Nodup →
      (((importTemplates (Except.ok (JsVal.arr [bareTemplate "a"]))
          seedState).1).templates.map (fun x => x.id)).Nodup) :=
  ids_unique_preserved "m" (bareTemplate "a") true [bareTemplate "a"] seedState
    (by decide)

/-- A template with its possibly-absent list fields defaulted to present,
empty sequences. -/
def withDefaultedLists (t : Template) : Template :=
  { t with tags := some (t.tags.getD []), rules := some (t.rules.getD []),
           examples := some (t.examples.getD []) }

/-- C10: filtering and the all-tags view are insensitive to whether a
template's `tags`, `rules` or `examples` field is absent or an empty
sequence — an absent field acts exactly as `[]` (so unvalidated imports
never break the library view), a template with absent fields still matches
the empty queries, and the all-tags view simply collects no tags from it. -/
theorem missing_fields_total (ts : List Template) (q tg : String) :
    filtered (ts.map withDefaultedLists) q tg =
      (filtered ts q tg).map withDefaultedLists ∧
    allTags (ts.map withDefaultedLists) = allTags ts ∧
    (∀ t : Template, filtered [t] "" "" = [t]) := by
  refine ⟨?_, ?_, ?_⟩
  · show List.filter _ (ts.map withDefaultedLists) =
      (List.filter _ ts).map withDefaultedLists
    rw [List.filter_map]
    congr 1
  · have hmap : (ts.map withDefaultedLists).map (fun t => t.tags.getD []) =
        ts.map (fun t => t.tags.getD []) := by
      rw [List.map_map]
      exact List.map_congr_left (fun x _ => rfl)
    unfold allTags
    rw [hmap]
  · intro t
    have h : trimStr (lowerStr "") = "" := rfl
    simp [filtered, List.filter_eq_self, h]

/-! ## A concrete model of the platform JSON services

`JSON.stringify(…, null, 2)` and `JSON.parse` are browser services the app
consumes opaquely.  The round-trip claim is settled abstractly — for any
serializer/parser pair that faithfully round-trips the exported document —
and the witness instantiates that hypothesis with the executable model
below, restricted to the document shapes this app exchanges. -/

/-- One escaped character of a JSON string literal. -/
def escapeChar (c : Char) : String :=
  if c = '"' then "\\\""
  else if c = '\\' then "\\\\"
  else if c = '\n' then "\\n"
  else if c = '\t' then "\\t"
  else if c = '\r' then "\\r"
  else if c = '\x08' then "\\b"
  else if c = '\x0c' then "\\f"
  else String.mk [c]

/-- A JSON string literal. -/
def quoteJson (s : String) : String :=
  "\"" ++ String.join (s.data.map escapeChar) ++ "\""

/-- A JSON array of strings, pretty-printed at the given indentation
(`[]` when empty, one indented element per line otherwise). -/
def stringifyStrArr (ind : String) (l : List String) : String :=
  if l = [] then "[]"
  else "[\n" ++ String.intercalate ",\n" (l.map (fun s => ind ++ "  " ++ quoteJson s)) ++
    "\n" ++ ind ++ "]"

/-- One `"key": value` member. -/
def fieldEntry (k v : String) : String := quoteJson k ++ ": " ++ v

/-- The members of a template object, in declaration order, absent fields
omitted (as `JSON.stringify` omits `undefined`-valued properties). -/
def templateFields (t : Template) : List String :=
  [fieldEntry "id" (quoteJson t.id)] ++
  (match t.name with | none => [] | some v => [fieldEntry "name" (quoteJson v)]) ++
  (match t.tags with | none => [] | some l => [fieldEntry "tags" (stringifyStrArr "    " l)]) ++
  (match t.context with | none => [] | some v => [fieldEntry "context" (quoteJson v)]) ++
  (match t.task with | none => [] | some v => [fieldEntry "task" (quoteJson v)]) ++
  (match t.rules with | none => [] | some l => [fieldEntry "rules" (stringifyStrArr "    " l)]) ++
  (match t.format with | none => [] | some v => [fieldEntry "format" (quoteJson v)]) ++
  (match t.examples with | none => [] | some l => [fieldEntry "examples" (stringifyStrArr "    " l)])

/-- A template as a pretty-printed JSON object at array depth. -/
def stringifyTemplate (t : Template) : String :=
  "\x7b\n" ++ String.intercalate ",\n" ((templateFields t).map (fun s => "    " ++ s)) ++
    "\n  \x7d"

/-- Model of `JSON.stringify(templates, null, 2)`. -/
def stringifyTemplates (ts : List Template) : String :=
  if ts = [] then "[]"
  else "[\n" ++ String.intercalate ",\n" (ts.map (fun t => "  " ++ stringifyTemplate t)) ++
    "\n]"

/-- A generic JSON value, as the model parser produces it. -/
inductive GenJson where
  | jnull : GenJson
  | jbool : Bool → GenJson
  | jnum : String → GenJson
  | jstr : String → GenJson
  | jarr : List GenJson → GenJson
  | jobj : List (String × GenJson) → GenJson

/-- Skip JSON whitespace. -/
def skipWs : List Char → List Char
  | [] => []
  | c :: r => if c.isWhitespace then skipWs r else c :: r

/-- Parse the remainder of a JSON string literal (the opening quote already
consumed), fuelled. -/
def parseStrAux : Nat → List Char → List Char → Option (String × List Char)
  | 0, _, _ => none
  | _ + 1, _, [] => none
  | f + 1, acc, c :: r =>
    if c = '"' then some (String.mk acc.reverse, r)
    else if c = '\\' then
      match r with
      | [] => none
      | e :: r2 =>
        if e = 'n' then parseStrAux f ('\n' :: acc) r2
        else if e = 't' then parseStrAux f ('\t' :: acc) r2
        else if e = 'r' then parseStrAux f ('\r' :: acc) r2
        else if e = '"' then parseStrAux f ('"' :: acc) r2
        else if e = '\\' then parseStrAux f ('\\' :: acc) r2
        else if e = '/' then parseStrAux f ('/' :: acc) r2
        else if e = 'b' then parseStrAux f ('\x08' :: acc) r2
        else if e = 'f' then parseStrAux f ('\x0c' :: acc) r2
        else none
    else parseStrAux f (c :: acc) r

/-- Characters a JSON number may contain. -/
def isNumChar (c : Char) : Bool :=
  c.isDigit || c = '-' || c = '+' || c = '.' || c = 'e' || c = 'E'

mutual

/-- Parse one JSON value, fuelled. -/
def parseVal : Nat → List Char → Option (GenJson × List Char)
  | 0, _ => none
  | f + 1, s =>
    match skipWs s with
    | [] => none
    | c :: r =>
      if c = '"' then
        match parseStrAux (f + 1) [] r with
        | some (str, rest) => some (GenJson.jstr str, rest)
        | none => none
      else if c = '[' then
        match skipWs r with
        | ']' :: r2 => some (GenJson.jarr [], r2)
        | r2 =>
          match parseArrItems f r2 with
          | some (items, rest) => some (GenJson.jarr items, rest)
          | none => none
      else if c = '\x7b' then
        match skipWs r with
        | '\x7d' :: r2 => some (GenJson.jobj [], r2)
        | r2 =>
          match parseObjItems f r2 with
          | some (kvs, rest) => some (GenJson.jobj kvs, rest)
          | none => none
      else if c = 't' then
        match r with
        | 'r' :: 'u' :: 'e' :: r2 => some (GenJson.jbool true, r2)
        | _ => none
      else if c = 'f' then
        match r with
        | 'a' :: 'l' :: 's' :: 'e' :: r2 => some (GenJson.jbool false, r2)
        | _ => none
      else if c = 'n' then
        match r with
        | 'u' :: 'l' :: 'l' :: r2 => some (GenJson.jnull, r2)
        | _ => none
      else if c.isDigit || c = '-' then
        some (GenJson.jnum (String.mk ((c :: r).takeWhile isNumChar)),
          (c :: r).dropWhile isNumChar)
      else none

/-- Parse the comma-separated items of a non-empty JSON array, up to and
including the closing bracket, fuelled. -/
def parseArrItems : Nat → List Char → Option (List GenJson × List Char)
  | 0, _ => none
  | f + 1, s =>
    match parseVal f s with
    | none => none
    | some (v, rest) =>
      match skipWs rest with
      | ',' :: r2 =>
        match parseArrItems f r2 with
        | some (vs, rest2) => some (v :: vs, rest2)
        | none => none
      | ']' :: r2 => some ([v], r2)
      | _ => none

/-- Parse the members of a non-empty JSON object, up to and including the
closing brace, fuelled. -/
def parseObjItems : Nat → List Char → Option (List (String × GenJson) × List Char)
  | 0, _ => none
  | f + 1, s =>
    match skipWs s with
    | '"' :: r =>
      match parseStrAux (f + 1) [] r with
      | none => none
      | some (k, rest) =>
        match skipWs rest with
        | ':' :: r2 =>
          match parseVal f r2 with
          | none => none
          | some (v, rest2) =>
            match skipWs rest2 with
            | ',' :: r3 =>
              match parseObjItems f r3 with
              | some (kvs, rest3) => some ((k, v) :: kvs, rest3)
              | none => none
            | '\x7d' :: r3 => some ([(k, v)], r3)
            | _ => none
        | _ => none
    | _ => none

end

/-- The value of a key in a parsed object. -/
def lookupKey (kvs : List (String × GenJson)) (k : String) : Option GenJson :=
  match kvs with
  | [] => none
  | (k', v) :: rest => if k' = k then some v else lookupKey rest k

/-- A parsed JSON value read as a string, when it is one. -/
def asString : GenJson → Option String
  | GenJson.jstr s => some s
  | _ => none

/-- A parsed JSON value read as an array of strings, when it is one. -/
def asStrList : GenJson → Option (List String)
  | GenJson.jarr l =>
    l.foldr
      (fun j acc =>
        match acc, asString j with
        | some xs, some s => some (s :: xs)
        | _, _ => none)
      (some [])
  | _ => none

/-- A parsed array element read back into the embedding's template shape
(absent keys stay absent, as unvalidated JS objects would). -/
def templateOfJson (j : GenJson) : Template :=
  match j with
  | GenJson.jobj kvs =>
    { id := ((lookupKey kvs "id").bind asString).getD "",
      name := (lookupKey kvs "name").bind asString,
      tags := (lookupKey kvs "tags").bind asStrList,
      context := (lookupKey kvs "context").bind asString,
      task := (lookupKey kvs "task").bind asString,
      rules := (lookupKey kvs "rules").bind asStrList,
      format := (lookupKey kvs "format").bind asString,
      examples := (lookupKey kvs "examples").bind asStrList }
  | _ =>
    { id := "", name := none, tags := none, context := none, task := none,
      rules := none, format := none, examples := none }

/-- Model of `JSON.parse` as `importTemplates` consumes it: a parse failure
carries a message, a parsed top-level array yields its elements, any other
JSON value is the non-array case. -/
def parsePlatform (s : String) : Except String JsVal :=
  match parseVal (s.length * 2 + 16) s.data with
  | none => Except.error "Unexpected token"
  | some (v, rest) =>
    if skipWs rest ≠ [] then Except.error "Unexpected token"
    else match v with
      | GenJson.jarr items => Except.ok (JsVal.arr (items.map templateOfJson))
      | _ => Except.ok JsVal.nonArr

/-- C8: for every state and every platform serializer/parser pair that
faithfully round-trips the exported document — `parse (stringify ts)`
returns the same array `ts` — importing the document produced by `export`
reproduces the collection exactly (same templates, same order, same field
values) and raises no error message. -/
theorem export_import_roundtrip (stringify : List Template → String)
    (parse : String → Except String JsVal) (st : AppState)
    (h : parse (stringify st.templates) = Except.ok (JsVal.arr st.templates)) :
    importTemplates (parse (exportTemplates stringify st)) st = (st, none) := by
  unfold exportTemplates
  rw [h]
  rfl

/-- The collection used by the round-trip witness: one template exercising
every field, including characters the serializer must escape. -/
def rtTemplates : List Template :=
  [ { id := "a1", name := some "Alpha \"quoted\"", tags := some ["x", "y"],
      context := some "line one\nline two", task := some "do \\ it",
      rules := some ["r1", "r2"], format := some "f",
      examples := some ["e1"] },
    { id := "b2", name := some "Beta", tags := some [],
      context := some "", task := none,
      rules := some ["only"], format := none, examples := none } ]

set_option maxRecDepth 20000 in
/-- C8 witness: the concrete JSON model round-trips the witness collection,
and the theorem applies to it. -/
theorem export_import_roundtrip_witness :
    importTemplates
        (parsePlatform
          (exportTemplates stringifyTemplates
            { templates := rtTemplates, active := none, name := "", tags := [],
              context := "", task := "", rules := [], format := "",
              examples := [] }))
        { templates := rtTemplates, active := none, name := "", tags := [],
          context := "", task := "", rules := [], format := "",
          examples := [] } =
      ({ templates := rtTemplates, active := none, name := "", tags := [],
         context := "", task := "", rules := [], format := "",
         examples := [] }, none) :=
  export_import_roundtrip stringifyTemplates parsePlatform
    { templates := rtTemplates, active := none, name := "", tags := [],
      context := "", task := "", rules := [], format := "", examples := [] }
    (by rfl)

end PromptTool
